import Mathlib

/-!
Verification of the AI Badgr provider adapter.

The development shallowly embeds the two source files that hold the
non-boilerplate logic of the repository:

* `src/libs/providers/langchain-aibadgr/src/profiles.ts` — the static
  model-name to profile table (`BASE_PROFILE`, `createProfile`, `PROFILES`);
* `src/libs/langchain-community/src/chat_models/aibadgr.ts` — the
  `ChatAIBadgr` class: API-key resolution and the constructor
  (`construct`), JSON-serialization redaction (`toJSON`), and request
  sanitization (`completionWithRetry`).

JavaScript objects that the code manipulates by string key (request
payloads, serialized kwargs) are embedded as association lists from
field name to an opaque string value; `delete obj.k` becomes
`deleteField`, property read becomes `getField`.  Optional values and
the JavaScript truthiness of the `||` operator (where both `undefined`
and the empty string are falsy) are made explicit via `Option String`
and `jsOr`.
-/

namespace AIBadgr

/-! ## Model profiles (profiles.ts) -/

/--
Embedding of the TypeScript `ModelProfile` record.  Every field is
optional, matching the `Partial`-style TypeScript type: `none` means the
field is absent from the record.
-/
structure ModelProfile where
  maxInputTokens : Option Nat := none
  maxOutputTokens : Option Nat := none
  imageInputs : Option Bool := none
  audioInputs : Option Bool := none
  pdfInputs : Option Bool := none
  videoInputs : Option Bool := none
  reasoningOutput : Option Bool := none
  imageOutputs : Option Bool := none
  audioOutputs : Option Bool := none
  videoOutputs : Option Bool := none
  toolCalling : Option Bool := none
  structuredOutput : Option Bool := none
deriving DecidableEq, Repr

/-- `BASE_PROFILE` from profiles.ts: capability flags shared by every model. -/
def BASE_PROFILE : ModelProfile where
  imageInputs := some false
  audioInputs := some false
  pdfInputs := some false
  videoInputs := some false
  reasoningOutput := some false
  imageOutputs := some false
  audioOutputs := some false
  videoOutputs := some false
  toolCalling := some true
  structuredOutput := some false

/--
`createProfile` from profiles.ts: spread of `BASE_PROFILE` plus the
tier-specific token limits.
-/
def createProfile (maxInputTokens maxOutputTokens : Nat) : ModelProfile :=
  { BASE_PROFILE with
      maxInputTokens := some maxInputTokens
      maxOutputTokens := some maxOutputTokens }

/--
`PROFILES` from profiles.ts, embedded as an association list in source
order: the three tier names followed by the three power-user model names.
-/
def PROFILES : List (String × ModelProfile) :=
  [ ("basic", createProfile 8192 4096),
    ("normal", createProfile 16384 8192),
    ("premium", createProfile 32768 16384),
    ("phi-3-mini", createProfile 8192 4096),
    ("mistral-7b", createProfile 16384 8192),
    ("llama3-8b-instruct", createProfile 32768 16384) ]

/--
Profile lookup: direct key access on the `PROFILES` record
(`PROFILES[name]` in TypeScript).  `none` is the embedded counterpart of
`undefined`, the empty/absent profile returned for unknown names.
-/
def lookup (name : String) : Option ModelProfile :=
  (PROFILES.find? (fun p => p.1 == name)).map Prod.snd

/-! ## JavaScript objects as association lists -/

/--
A JavaScript object manipulated by string key (a chat-completion request
payload, a serialized kwargs record), embedded as an association list
from field name to an opaque serialized value.
-/
abbrev JsObject := List (String × String)

/-- Property read `obj[k]`: `none` is `undefined`. -/
def getField (obj : JsObject) (k : String) : Option String :=
  (obj.find? (fun p => p.1 == k)).map Prod.snd

/-- `delete obj[k]`: the property named `k` is removed from the object. -/
def deleteField (obj : JsObject) (k : String) : JsObject :=
  obj.filter (fun p => p.1 != k)

/-! ## JavaScript truthiness and the || operator -/

/--
JavaScript `a || b` on optional strings: `undefined` and the empty
string are falsy, so they fall through to `b`.
-/
def jsOr (a b : Option String) : Option String :=
  match a with
  | some s => if s = "" then b else some s
  | none => b

/-- JavaScript `a || d` with a (truthy) string default `d`. -/
def jsOrDefault (a : Option String) (d : String) : String :=
  match a with
  | some s => if s = "" then d else s
  | none => d

/-- `true` exactly when the optional string is a truthy (non-empty) value. -/
def isNonEmpty (a : Option String) : Bool :=
  match a with
  | some s => s != ""
  | none => false

/-! ## The ChatAIBadgr constructor (aibadgr.ts) -/

/--
The constructor fields of `ChatAIBadgr` that the adapter itself touches.
`apiKey` and `aibadgrApiKey` are the two API-key fields of
`ChatAIBadgrInput`; `model` and `configuration` are inherited from
`OpenAIChatInput`; `temperature` stands for the remaining pass-through
options forwarded unchanged to the superclass by the object spread.
-/
structure ConstructorFields where
  apiKey : Option String := none
  aibadgrApiKey : Option String := none
  model : Option String := none
  configuration : Option String := none
  temperature : Option String := none
deriving DecidableEq, Repr

/-- The `configuration` block handed to the wrapped OpenAI client. -/
structure Configuration where
  baseURL : String
deriving DecidableEq, Repr

/--
The argument object built by the constructor and passed to `super(...)`,
that is, to the wrapped OpenAI-compatible client: the object literal
`\x7b ...fields, model, apiKey, configuration \x7d` in the source.
-/
structure SuperArgs where
  model : String
  apiKey : String
  configuration : Configuration
  temperature : Option String
deriving DecidableEq, Repr

/-- The exact message of the error thrown when no API key resolves. -/
def errorMessage : String :=
  "AI Badgr API key not found. Please set the AIBADGR_API_KEY environment variable or provide the key into \"aibadgrApiKey\""

/--
API-key resolution from the constructor:
`fields?.apiKey || fields?.aibadgrApiKey || getEnvironmentVariable("AIBADGR_API_KEY")`.
`env` is the value of the `AIBADGR_API_KEY` environment variable.
-/
def resolveApiKey (fields : Option ConstructorFields) (env : Option String) :
    Option String :=
  jsOr (fields.bind ConstructorFields.apiKey)
    (jsOr (fields.bind ConstructorFields.aibadgrApiKey) env)

/--
The `ChatAIBadgr` constructor: resolve the API key, throw
`errorMessage` when the resolved value is falsy, otherwise call
`super` with the spread fields, the model defaulted through
`fields?.model || "gpt-4"`, the resolved key, and the hard-coded
`configuration` block (which overrides any caller-supplied one, because
it comes after the spread in the object literal).
-/
def construct (fields : Option ConstructorFields) (env : Option String) :
    Except String SuperArgs :=
  match resolveApiKey fields env with
  | none => .error errorMessage
  | some s =>
      if s = "" then .error errorMessage
      else
        .ok { model := jsOrDefault (fields.bind ConstructorFields.model) "gpt-4"
              apiKey := s
              configuration := { baseURL := "https://aibadgr.com/api/v1" }
              temperature := fields.bind ConstructorFields.temperature }

/-! ## Request sanitization (completionWithRetry) -/

/-- The four request fields deleted before delegating to the wrapped client. -/
def unsupportedFields : List String :=
  ["frequency_penalty", "presence_penalty", "logit_bias", "functions"]

/--
The four `delete request.x` statements of `completionWithRetry`, in
source order.
-/
def sanitizeRequest (r : JsObject) : JsObject :=
  deleteField
    (deleteField
      (deleteField (deleteField r "frequency_penalty") "presence_penalty")
      "logit_bias")
    "functions"

/--
The observable effect of one `completionWithRetry` call on a request
object `r` (streaming and non-streaming requests go through the same
single implementation): `delegated` is the payload handed to
`super.completionWithRetry`, and `callerObject` is the state of the
object the caller passed in after the call.  The source deletes the
fields on `request` itself and then forwards that same object, so both
components are the sanitized object — the deletions happen in place on
the object the caller aliases.
-/
structure CompletionCall where
  delegated : JsObject
  callerObject : JsObject
deriving DecidableEq, Repr

/-- `completionWithRetry` as a transform on the request object. -/
def completionWithRetry (r : JsObject) : CompletionCall :=
  { delegated := sanitizeRequest r
    callerObject := sanitizeRequest r }

/-! ## Serialization redaction (toJSON) -/

/--
`toJSON` of `ChatAIBadgr`, restricted to the `kwargs` record of the
serialized representation produced by `super.toJSON()` (the surrounding
envelope is returned untouched): it deletes the `openai_api_key` and
`configuration` keys from the kwargs.
-/
def toJSON (kwargs : JsObject) : JsObject :=
  deleteField (deleteField kwargs "openai_api_key") "configuration"

/-! ## Helper lemmas -/

/-- Unfolding of `getField` on a non-empty object. -/
theorem getField_cons (a : String × String) (r : JsObject) (k : String) :
    getField (a :: r) k = if a.1 = k then some a.2 else getField r k := by
  by_cases h : a.1 = k
  · rw [getField, List.find?_cons_of_pos _ (by simp [h]), if_pos h]; rfl
  · rw [getField, List.find?_cons_of_neg _ (by simp [h]), if_neg h]; rfl

/-- Unfolding of `deleteField` on a non-empty object. -/
theorem deleteField_cons (a : String × String) (r : JsObject) (k : String) :
    deleteField (a :: r) k =
      if a.1 = k then deleteField r k else a :: deleteField r k := by
  by_cases h : a.1 = k <;> simp [deleteField, List.filter_cons, h]

/-- Reading a deleted property yields `undefined`. -/
theorem getField_deleteField_self (obj : JsObject) (k : String) :
    getField (deleteField obj k) k = none := by
  induction obj with
  | nil => rfl
  | cons a r ih =>
    rw [deleteField_cons]
    by_cases h : a.1 = k
    · rw [if_pos h]; exact ih
    · rw [if_neg h, getField_cons, if_neg h]; exact ih

/-- Deleting one property leaves every other property unchanged. -/
theorem getField_deleteField_other (obj : JsObject) (k d : String) (h : k ≠ d) :
    getField (deleteField obj d) k = getField obj k := by
  induction obj with
  | nil => rfl
  | cons a r ih =>
    rw [deleteField_cons]
    by_cases h1 : a.1 = d
    · have h2 : a.1 ≠ k := by rw [h1]; exact fun hdk => h hdk.symm
      rw [if_pos h1, getField_cons, if_neg h2]
      exact ih
    · rw [if_neg h1, getField_cons, getField_cons]
      by_cases h2 : a.1 = k
      · rw [if_pos h2, if_pos h2]
      · rw [if_neg h2, if_neg h2]; exact ih

/-- A truthy left operand short-circuits `||`. -/
theorem jsOr_of_nonEmpty (a b : Option String) (h : isNonEmpty a = true) :
    jsOr a b = a := by
  cases a with
  | none => simp [isNonEmpty] at h
  | some s =>
    have hs : s ≠ "" := by simpa [isNonEmpty] using h
    simp [jsOr, hs]

/-- A falsy left operand falls through `||`. -/
theorem jsOr_of_empty (a b : Option String) (h : isNonEmpty a = false) :
    jsOr a b = b := by
  cases a with
  | none => rfl
  | some s =>
    have hs : s = "" := by simpa [isNonEmpty] using h
    simp [jsOr, hs]

/-- `||` yields a truthy value exactly when one of its operands is truthy. -/
theorem isNonEmpty_jsOr (a b : Option String) :
    isNonEmpty (jsOr a b) = (isNonEmpty a || isNonEmpty b) := by
  cases a with
  | none => simp [jsOr, isNonEmpty]
  | some s =>
    by_cases hs : s = "" <;> simp [jsOr, isNonEmpty, hs]

/-- When the resolved key is truthy, the constructor returns it in the super call. -/
theorem construct_ok_of_nonEmpty (fields : Option ConstructorFields)
    (env : Option String)
    (h : isNonEmpty (resolveApiKey fields env) = true) :
    ∃ args, construct fields env = .ok args ∧
      some args.apiKey = resolveApiKey fields env := by
  rcases hr : resolveApiKey fields env with _ | s
  · rw [hr] at h; simp [isNonEmpty] at h
  · have hs : s ≠ "" := by
      rw [hr] at h; simpa [isNonEmpty] using h
    refine ⟨{ model := jsOrDefault (fields.bind ConstructorFields.model) "gpt-4"
              apiKey := s
              configuration := { baseURL := "https://aibadgr.com/api/v1" }
              temperature := fields.bind ConstructorFields.temperature }, ?_, rfl⟩
    unfold construct
    rw [hr]
    simp [hs]

/-- The constructor throws exactly when the resolved key is falsy. -/
theorem construct_error_iff (fields : Option ConstructorFields)
    (env : Option String) :
    (∃ m, construct fields env = .error m) ↔
      isNonEmpty (resolveApiKey fields env) = false := by
  constructor
  · rintro ⟨m, hm⟩
    rcases hr : resolveApiKey fields env with _ | s
    · rfl
    · unfold construct at hm
      rw [hr] at hm
      by_cases hs : s = ""
      · simp [isNonEmpty, hr, hs]
      · simp [hs] at hm
  · intro h
    rcases hr : resolveApiKey fields env with _ | s
    · exact ⟨errorMessage, by unfold construct; rw [hr]⟩
    · have hs : s = "" := by
        rw [hr] at h; simpa [isNonEmpty] using h
      exact ⟨errorMessage, by unfold construct; rw [hr]; simp [hs]⟩

/-- Every error the constructor throws carries the single fixed message. -/
theorem construct_error_eq (fields : Option ConstructorFields)
    (env : Option String) (m : String)
    (hm : construct fields env = .error m) : m = errorMessage := by
  unfold construct at hm
  rcases hr : resolveApiKey fields env with _ | s <;> rw [hr] at hm
  · exact (Except.error.inj hm).symm
  · by_cases hs : s = ""
    · simp [hs] at hm
      exact hm.symm
    · simp [hs] at hm

/-- The resolved key is truthy exactly when one of the three sources is. -/
theorem isNonEmpty_resolveApiKey (fields : Option ConstructorFields)
    (env : Option String) :
    isNonEmpty (resolveApiKey fields env) =
      (isNonEmpty (fields.bind ConstructorFields.apiKey) ||
       isNonEmpty (fields.bind ConstructorFields.aibadgrApiKey) ||
       isNonEmpty env) := by
  unfold resolveApiKey
  rw [isNonEmpty_jsOr, isNonEmpty_jsOr, Bool.or_assoc]

/-- Sanitization removes each of the four unsupported fields. -/
theorem getField_sanitize_mem (r : JsObject) (k : String)
    (hk : k ∈ unsupportedFields) : getField (sanitizeRequest r) k = none := by
  have hk4 : k = "frequency_penalty" ∨ k = "presence_penalty" ∨
      k = "logit_bias" ∨ k = "functions" := by
    simpa [unsupportedFields] using hk
  unfold sanitizeRequest
  rcases hk4 with rfl | rfl | rfl | rfl
  · rw [getField_deleteField_other _ _ _ (by decide),
        getField_deleteField_other _ _ _ (by decide),
        getField_deleteField_other _ _ _ (by decide),
        getField_deleteField_self]
  · rw [getField_deleteField_other _ _ _ (by decide),
        getField_deleteField_other _ _ _ (by decide),
        getField_deleteField_self]
  · rw [getField_deleteField_other _ _ _ (by decide),
        getField_deleteField_self]
  · rw [getField_deleteField_self]

/-- Sanitization leaves every other field of the payload unchanged. -/
theorem getField_sanitize_not_mem (r : JsObject) (k : String)
    (hk : k ∉ unsupportedFields) :
    getField (sanitizeRequest r) k = getField r k := by
  have h1 : k ≠ "frequency_penalty" := fun h => hk (by simp [unsupportedFields, h])
  have h2 : k ≠ "presence_penalty" := fun h => hk (by simp [unsupportedFields, h])
  have h3 : k ≠ "logit_bias" := fun h => hk (by simp [unsupportedFields, h])
  have h4 : k ≠ "functions" := fun h => hk (by simp [unsupportedFields, h])
  unfold sanitizeRequest
  rw [getField_deleteField_other _ _ _ h4, getField_deleteField_other _ _ _ h3,
      getField_deleteField_other _ _ _ h2, getField_deleteField_other _ _ _ h1]

/-! ## Claims -/

/--
C5: profile lookup returns maxInputTokens/maxOutputTokens of 8192/4096
for both "basic" and "phi-3-mini", 16384/8192 for both "normal" and
"mistral-7b", and 32768/16384 for both "premium" and
"llama3-8b-instruct"; each power-user name resolves to a profile equal,
field for field, to the profile of its tier.
-/
theorem c5_profile_table_values :
    (lookup "basic").map (fun p => (p.maxInputTokens, p.maxOutputTokens)) =
      some (some 8192, some 4096) ∧
    lookup "phi-3-mini" = lookup "basic" ∧
    (lookup "normal").map (fun p => (p.maxInputTokens, p.maxOutputTokens)) =
      some (some 16384, some 8192) ∧
    lookup "mistral-7b" = lookup "normal" ∧
    (lookup "premium").map (fun p => (p.maxInputTokens, p.maxOutputTokens)) =
      some (some 32768, some 16384) ∧
    lookup "llama3-8b-instruct" = lookup "premium" := by
  refine ⟨rfl, rfl, rfl, rfl, rfl, rfl⟩

/--
C6: profile lookup is exact string matching on the six known keys: a
name outside the key set yields the absent profile (and lookup is total,
so no error is raised), and every name inside the key set yields a
present profile.
-/
theorem c6_unknown_lookup_empty (s : String) :
    (s ∉ PROFILES.map Prod.fst → lookup s = none) ∧
    (s ∈ PROFILES.map Prod.fst → lookup s ≠ none) := by
  constructor
  · intro hs
    unfold lookup
    rcases hf : PROFILES.find? (fun p => p.1 == s) with _ | p
    · rw [hf]; rfl
    · exfalso
      have hmem := List.mem_of_find?_eq_some hf
      have hbeq := List.find?_some hf
      have hp : p.1 = s := by simpa using hbeq
      exact hs (hp ▸ List.mem_map_of_mem Prod.fst hmem)
  · intro hs
    have h6 : s = "basic" ∨ s = "normal" ∨ s = "premium" ∨ s = "phi-3-mini" ∨
        s = "mistral-7b" ∨ s = "llama3-8b-instruct" := by
      simpa [PROFILES] using hs
    rcases h6 with rfl | rfl | rfl | rfl | rfl | rfl <;> decide

/-- Witness for C6 at the concrete unknown name used by the tests. -/
theorem c6_unknown_lookup_empty_witness :
    ("totally-unknown-model" ∉ PROFILES.map Prod.fst) ∧
      lookup "totally-unknown-model" = none :=
  ⟨by decide, (c6_unknown_lookup_empty "totally-unknown-model").1 (by decide)⟩

/--
C10: every profile in the static table has identical capability flags —
toolCalling is true and the nine other capability flags are false — and
any two profiles in the table differ at most in maxInputTokens and
maxOutputTokens.
-/
theorem c10_uniform_capabilities :
    ∀ p ∈ PROFILES,
      (p.2.toolCalling = some true ∧ p.2.imageInputs = some false ∧
       p.2.audioInputs = some false ∧ p.2.pdfInputs = some false ∧
       p.2.videoInputs = some false ∧ p.2.reasoningOutput = some false ∧
       p.2.imageOutputs = some false ∧ p.2.audioOutputs = some false ∧
       p.2.videoOutputs = some false ∧ p.2.structuredOutput = some false) ∧
      ∀ q ∈ PROFILES,
        { q.2 with maxInputTokens := p.2.maxInputTokens,
                   maxOutputTokens := p.2.maxOutputTokens } = p.2 := by
  decide

/-- Witness for C10 at the first table entry. -/
theorem c10_uniform_capabilities_witness :
    (("basic", createProfile 8192 4096) ∈ PROFILES) ∧
      (createProfile 8192 4096).toolCalling = some true :=
  ⟨by decide,
   (c10_uniform_capabilities ("basic", createProfile 8192 4096) (by decide)).1.1⟩

/--
C2: the constructor resolves the API key to the first non-empty value
among the `apiKey` field, the `aibadgrApiKey` field and the
`AIBADGR_API_KEY` environment variable, in that priority order, and
construction succeeds with that value whenever at least one of the three
is non-empty.
-/
theorem c2_api_key_priority (a b e : Option String) :
    (isNonEmpty a = true →
      resolveApiKey (some { apiKey := a, aibadgrApiKey := b }) e = a) ∧
    (isNonEmpty a = false → isNonEmpty b = true →
      resolveApiKey (some { apiKey := a, aibadgrApiKey := b }) e = b) ∧
    (isNonEmpty a = false → isNonEmpty b = false →
      resolveApiKey (some { apiKey := a, aibadgrApiKey := b }) e = e) ∧
    ((isNonEmpty a || isNonEmpty b || isNonEmpty e) = true →
      ∃ args, construct (some { apiKey := a, aibadgrApiKey := b }) e = .ok args ∧
        some args.apiKey =
          resolveApiKey (some { apiKey := a, aibadgrApiKey := b }) e) := by
  refine ⟨?_, ?_, ?_, ?_⟩
  · intro ha
    show jsOr a (jsOr b e) = a
    exact jsOr_of_nonEmpty a _ ha
  · intro ha hb
    show jsOr a (jsOr b e) = b
    rw [jsOr_of_empty a _ ha, jsOr_of_nonEmpty b e hb]
  · intro ha hb
    show jsOr a (jsOr b e) = e
    rw [jsOr_of_empty a _ ha, jsOr_of_empty b e hb]
  · intro h
    refine construct_ok_of_nonEmpty _ e ?_
    show isNonEmpty (jsOr a (jsOr b e)) = true
    rw [isNonEmpty_jsOr, isNonEmpty_jsOr]
    simpa [Bool.or_assoc] using h

/-- Witness for C2: the explicit `apiKey` field wins over the alias field. -/
theorem c2_api_key_priority_witness :
    isNonEmpty (some "k1") = true ∧
      resolveApiKey
        (some { apiKey := some "k1", aibadgrApiKey := some "k2" })
        (some "k3") = some "k1" :=
  ⟨by decide,
   (c2_api_key_priority (some "k1") (some "k2") (some "k3")).1 (by decide)⟩

/--
C3: the constructor throws exactly when none of the three API-key
sources is non-empty; the single error message it can throw names both
the environment variable AIBADGR_API_KEY and the constructor field
aibadgrApiKey, and the constructor is the only fallible operation of the
component.
-/
theorem c3_error_iff_no_key (fields : Option ConstructorFields)
    (env : Option String) :
    ((∃ m, construct fields env = .error m) ↔
      (isNonEmpty (fields.bind ConstructorFields.apiKey) = false ∧
       isNonEmpty (fields.bind ConstructorFields.aibadgrApiKey) = false ∧
       isNonEmpty env = false)) ∧
    (∀ m, construct fields env = .error m → m = errorMessage) ∧
    (∃ pre mid post,
      errorMessage = pre ++ "AIBADGR_API_KEY" ++ mid ++ "aibadgrApiKey" ++ post) := by
  refine ⟨?_, fun m hm => construct_error_eq fields env m hm, ?_⟩
  · rw [construct_error_iff, isNonEmpty_resolveApiKey]
    constructor
    · intro h
      rcases Bool.or_eq_false_iff.mp h with ⟨h1, h3⟩
      rcases Bool.or_eq_false_iff.mp h1 with ⟨ha, hb⟩
      exact ⟨ha, hb, h3⟩
    · rintro ⟨ha, hb, he⟩
      rw [ha, hb, he]
      rfl
  · exact ⟨"AI Badgr API key not found. Please set the ",
      " environment variable or provide the key into \"", "\"", rfl⟩

/-- Witness for C3: a constructor call with no key source at all throws. -/
theorem c3_error_iff_no_key_witness :
    ∃ m, construct none none = .error m :=
  (c3_error_iff_no_key none none).1.mpr ⟨rfl, rfl, rfl⟩

/--
C4: the code evaluated at the failing input.  Constructing with only an
API key and no model field yields effective model "gpt-4" — not
"premium" as the claim and the accompanying unit test expect — while
constructing with model "basic" does yield "basic".
-/
theorem c4_default_model_is_gpt4 :
    (construct (some { apiKey := some "test-api-key" }) none).toOption.map
      SuperArgs.model = some "gpt-4" ∧
    (construct (some { apiKey := some "test-api-key", model := some "basic" })
      none).toOption.map SuperArgs.model = some "basic" ∧
    "gpt-4" ≠ "premium" :=
  ⟨rfl, rfl, by decide⟩

/--
C8: whenever construction succeeds, the configuration block handed to
the wrapped OpenAI-compatible client is exactly the hard-coded one with
baseURL "https://aibadgr.com/api/v1", regardless of any caller-supplied
configuration in the constructor fields.
-/
theorem c8_fixed_base_url (fields : Option ConstructorFields)
    (env : Option String) (args : SuperArgs)
    (h : construct fields env = .ok args) :
    args.configuration = { baseURL := "https://aibadgr.com/api/v1" } := by
  unfold construct at h
  rcases hr : resolveApiKey fields env with _ | s <;> rw [hr] at h
  · cases h
  · by_cases hs : s = ""
    · simp [hs] at h
    · simp [hs] at h
      rw [← h]

/--
Witness for C8: a caller-supplied configuration block with a different
base URL is replaced by the hard-coded one.
-/
theorem c8_fixed_base_url_witness :
    construct
        (some { apiKey := some "k",
                configuration := some "baseURL http://other.example" }) none =
      .ok { model := "gpt-4", apiKey := "k",
            configuration := { baseURL := "https://aibadgr.com/api/v1" },
            temperature := none } ∧
    ({ model := "gpt-4", apiKey := "k",
       configuration := { baseURL := "https://aibadgr.com/api/v1" },
       temperature := none } : SuperArgs).configuration =
      { baseURL := "https://aibadgr.com/api/v1" } :=
  ⟨rfl, c8_fixed_base_url
    (some { apiKey := some "k",
            configuration := some "baseURL http://other.example" }) none _ rfl⟩

/--
C1: for every chat-completion request payload (streaming and
non-streaming requests share the single implementation), the payload
handed to the wrapped client has the fields frequency_penalty,
presence_penalty, logit_bias and functions absent, and every other
field equal to its value in the original request.
-/
theorem c1_sanitized_payload (r : JsObject) (k : String) :
    (k ∈ unsupportedFields →
      getField (completionWithRetry r).delegated k = none) ∧
    (k ∉ unsupportedFields →
      getField (completionWithRetry r).delegated k = getField r k) :=
  ⟨fun hk => getField_sanitize_mem r k hk,
   fun hk => getField_sanitize_not_mem r k hk⟩

/--
Witness for C1: on a payload carrying messages, temperature, tools and
frequency_penalty, the delegated payload drops frequency_penalty and
keeps messages.
-/
theorem c1_sanitized_payload_witness :
    ("frequency_penalty" ∈ unsupportedFields ∧
      getField
        (completionWithRetry
          [("messages", "hi"), ("temperature", "0.7"),
           ("frequency_penalty", "1.5"), ("tools", "t")]).delegated
        "frequency_penalty" = none) ∧
    ("messages" ∉ unsupportedFields ∧
      getField
        (completionWithRetry
          [("messages", "hi"), ("temperature", "0.7"),
           ("frequency_penalty", "1.5"), ("tools", "t")]).delegated
        "messages" =
      getField
        [("messages", "hi"), ("temperature", "0.7"),
         ("frequency_penalty", "1.5"), ("tools", "t")] "messages") :=
  ⟨⟨by decide,
    (c1_sanitized_payload
      [("messages", "hi"), ("temperature", "0.7"),
       ("frequency_penalty", "1.5"), ("tools", "t")]
      "frequency_penalty").1 (by decide)⟩,
   ⟨by decide,
    (c1_sanitized_payload
      [("messages", "hi"), ("temperature", "0.7"),
       ("frequency_penalty", "1.5"), ("tools", "t")]
      "messages").2 (by decide)⟩⟩

/--
C9 counterexample: sanitization is not side-effect-free on the object
the caller passed in.  The source deletes the four properties on the
request object itself, so after the call a payload that carried
frequency_penalty is no longer equal to the original — refuting the
claim that the removal is not observable on the object the caller
passed in.
-/
theorem c9_purity_counterexample :
    (completionWithRetry
      [("frequency_penalty", "1.5"), ("messages", "hello")]).callerObject ≠
      [("frequency_penalty", "1.5"), ("messages", "hello")] := by
  decide

/--
C9 amended: sanitization happens by in-place deletion on the request
object the caller passed: after completionWithRetry, the caller sees
the same object that was delegated to the wrapped client — the four
unsupported fields are absent from it and every other field keeps its
original value.
-/
theorem c9_in_place_sanitization (r : JsObject) (k : String) :
    (completionWithRetry r).callerObject = (completionWithRetry r).delegated ∧
    (k ∈ unsupportedFields →
      getField (completionWithRetry r).callerObject k = none) ∧
    (k ∉ unsupportedFields →
      getField (completionWithRetry r).callerObject k = getField r k) :=
  ⟨rfl, fun hk => getField_sanitize_mem r k hk,
   fun hk => getField_sanitize_not_mem r k hk⟩

/--
Witness for the amended C9: after the call on a payload carrying
presence_penalty, the caller-visible object has presence_penalty absent
and messages intact.
-/
theorem c9_in_place_sanitization_witness :
    ("presence_penalty" ∈ unsupportedFields ∧
      getField
        (completionWithRetry
          [("presence_penalty", "2"), ("messages", "hey")]).callerObject
        "presence_penalty" = none) ∧
    ("messages" ∉ unsupportedFields ∧
      getField
        (completionWithRetry
          [("presence_penalty", "2"), ("messages", "hey")]).callerObject
        "messages" =
      getField [("presence_penalty", "2"), ("messages", "hey")] "messages") :=
  ⟨⟨by decide,
    (c9_in_place_sanitization
      [("presence_penalty", "2"), ("messages", "hey")]
      "presence_penalty").2.1 (by decide)⟩,
   ⟨by decide,
    (c9_in_place_sanitization
      [("presence_penalty", "2"), ("messages", "hey")]
      "messages").2.2 (by decide)⟩⟩

/--
C7: the serialized form of a constructed client contains neither the
resolved API key nor the endpoint configuration block: toJSON removes
the keys openai_api_key and configuration from the serialized kwargs
entirely (whatever kwargs the superclass serializer produced), and
leaves every other kwargs entry unchanged.
-/
theorem c7_serialization_redaction (kwargs : JsObject) (k : String) :
    getField (toJSON kwargs) "openai_api_key" = none ∧
    getField (toJSON kwargs) "configuration" = none ∧
    (k ≠ "openai_api_key" → k ≠ "configuration" →
      getField (toJSON kwargs) k = getField kwargs k) := by
  refine ⟨?_, ?_, fun h1 h2 => ?_⟩
  · rw [toJSON, getField_deleteField_other _ _ _ (by decide),
        getField_deleteField_self]
  · rw [toJSON, getField_deleteField_self]
  · rw [toJSON, getField_deleteField_other _ _ _ h2,
        getField_deleteField_other _ _ _ h1]

/--
Witness for C7: serializing kwargs that hold the key, the configuration
block and a model entry keeps only the model entry of the three.
-/
theorem c7_serialization_redaction_witness :
    "model" ≠ "openai_api_key" ∧ "model" ≠ "configuration" ∧
      getField
        (toJSON
          [("openai_api_key", "sk-secret"), ("configuration", "cfg"),
           ("model", "premium")]) "model" =
      getField
        [("openai_api_key", "sk-secret"), ("configuration", "cfg"),
         ("model", "premium")] "model" :=
  ⟨by decide, by decide,
   (c7_serialization_redaction
     [("openai_api_key", "sk-secret"), ("configuration", "cfg"),
      ("model", "premium")] "model").2.2 (by decide) (by decide)⟩

end AIBadgr
